import Mathlib

/-!
Verification of the pure state-machine core of the smart-garage-door-opener
repository: the door state machine (`src/main/garage_state_machine.c`), the
MQTT reconnect policy (`src/main/mqtt/mqtt_retry_manager.c`) and the WiFi
reconnect policy (`src/main/wifi/wifi_retry_manager.c`).

C `int` fields are modelled as `Int`; C structs become Lean structures; a
function that mutates through a pointer becomes a function returning the
updated struct together with its C return value; a nullable pointer argument
becomes an `Option`.
-/

/-- Door states (`garage_state_t`, garage_state_machine.h). -/
inductive garage_state_t where
  | GARAGE_STATE_CLOSED
  | GARAGE_STATE_OPEN
  | GARAGE_STATE_CLOSING
  | GARAGE_STATE_OPENING
  | GARAGE_STATE_UNKNOWN
deriving DecidableEq, Repr

/-- Input events (`garage_event_t`, garage_state_machine.h). -/
inductive garage_event_t where
  | GARAGE_EVENT_NONE
  | GARAGE_EVENT_SENSOR_CLOSED
  | GARAGE_EVENT_SENSOR_OPEN
  | GARAGE_EVENT_COMMAND_OPEN
  | GARAGE_EVENT_COMMAND_CLOSE
  | GARAGE_EVENT_TIMER_EXPIRED
deriving DecidableEq, Repr

open garage_state_t garage_event_t

/-- Action flags (`garage_actions_t`). -/
structure garage_actions_t where
  publish_state : Bool
  trigger_button_press : Bool
  start_timeout_timer : Bool
deriving DecidableEq, Repr

/-- Result of processing an event (`garage_transition_result_t`). -/
structure garage_transition_result_t where
  new_state : garage_state_t
  state_changed : Bool
  actions : garage_actions_t
deriving DecidableEq, Repr

/-- State machine context (`garage_state_machine_t`). -/
structure garage_state_machine_t where
  current_state : garage_state_t
  timeout_ms : Int
  timer_elapsed_ms : Int
  timer_active : Bool
deriving DecidableEq, Repr

/-- Configuration (`garage_sm_config_t`). -/
structure garage_sm_config_t where
  timeout_ms : Int
deriving DecidableEq, Repr

def DEFAULT_TIMEOUT_MS : Int := 15000

/-- `garage_sm_init` on a non-null pointer. -/
def garage_sm_init (initial_state : garage_state_t) : garage_state_machine_t :=
  { current_state := initial_state
    timeout_ms := DEFAULT_TIMEOUT_MS
    timer_elapsed_ms := 0
    timer_active := false }

/-- `garage_sm_init_with_config` on a non-null machine pointer; the config
pointer may be null. -/
def garage_sm_init_with_config (initial_state : garage_state_t)
    (config : Option garage_sm_config_t) : garage_state_machine_t :=
  { current_state := initial_state
    timeout_ms :=
      match config with
      | some c => if c.timeout_ms > 0 then c.timeout_ms else DEFAULT_TIMEOUT_MS
      | none => DEFAULT_TIMEOUT_MS
    timer_elapsed_ms := 0
    timer_active := false }

/-- `garage_state_to_string` exactly as implemented in
garage_state_machine.c lines 58-68 (note: returns UPPERCASE strings). -/
def garage_state_to_string : garage_state_t → String
  | GARAGE_STATE_CLOSED => "CLOSED"
  | GARAGE_STATE_OPEN => "OPEN"
  | GARAGE_STATE_CLOSING => "CLOSING"
  | GARAGE_STATE_OPENING => "OPENING"
  | GARAGE_STATE_UNKNOWN => "UNKNOWN"

/-- `make_result` (garage_state_machine.c lines 85-98). -/
def make_result (current new_state : garage_state_t)
    (button_press start_timer : Bool) : garage_transition_result_t :=
  { new_state := new_state
    state_changed := current != new_state
    actions :=
      { publish_state := current != new_state
        trigger_button_press := button_press
        start_timeout_timer := start_timer } }

/-- `handle_closed_state`. -/
def handle_closed_state (current : garage_state_t) (event : garage_event_t) :
    garage_transition_result_t :=
  match event with
  | GARAGE_EVENT_SENSOR_OPEN => make_result current GARAGE_STATE_OPENING false true
  | GARAGE_EVENT_COMMAND_OPEN => make_result current GARAGE_STATE_OPENING true true
  | _ => make_result current current false false

/-- `handle_open_state`. -/
def handle_open_state (current : garage_state_t) (event : garage_event_t) :
    garage_transition_result_t :=
  match event with
  | GARAGE_EVENT_SENSOR_CLOSED => make_result current GARAGE_STATE_CLOSED false false
  | GARAGE_EVENT_COMMAND_CLOSE => make_result current GARAGE_STATE_CLOSING true true
  | _ => make_result current current false false

/-- `handle_closing_state`. -/
def handle_closing_state (current : garage_state_t) (event : garage_event_t) :
    garage_transition_result_t :=
  match event with
  | GARAGE_EVENT_SENSOR_CLOSED => make_result current GARAGE_STATE_CLOSED false false
  | GARAGE_EVENT_TIMER_EXPIRED => make_result current GARAGE_STATE_UNKNOWN false false
  | _ => make_result current current false false

/-- `handle_opening_state`. -/
def handle_opening_state (current : garage_state_t) (event : garage_event_t) :
    garage_transition_result_t :=
  match event with
  | GARAGE_EVENT_SENSOR_CLOSED => make_result current GARAGE_STATE_CLOSED false false
  | GARAGE_EVENT_TIMER_EXPIRED => make_result current GARAGE_STATE_OPEN false false
  | _ => make_result current current false false

/-- `handle_unknown_state`. -/
def handle_unknown_state (current : garage_state_t) (event : garage_event_t) :
    garage_transition_result_t :=
  match event with
  | GARAGE_EVENT_SENSOR_CLOSED => make_result current GARAGE_STATE_CLOSED false false
  | GARAGE_EVENT_SENSOR_OPEN => make_result current GARAGE_STATE_OPEN false false
  | GARAGE_EVENT_COMMAND_OPEN => make_result current GARAGE_STATE_OPENING true true
  | GARAGE_EVENT_COMMAND_CLOSE => make_result current GARAGE_STATE_CLOSING true true
  | _ => make_result current current false false

/-- `garage_sm_process_event` on a non-null machine (lines 208-261): returns
the updated machine together with the transition result. -/
def garage_sm_process_event (sm : garage_state_machine_t) (event : garage_event_t) :
    garage_state_machine_t × garage_transition_result_t :=
  let current := sm.current_state
  let result :=
    match current with
    | GARAGE_STATE_CLOSED => handle_closed_state current event
    | GARAGE_STATE_OPEN => handle_open_state current event
    | GARAGE_STATE_CLOSING => handle_closing_state current event
    | GARAGE_STATE_OPENING => handle_opening_state current event
    | GARAGE_STATE_UNKNOWN => handle_unknown_state current event
  let sm1 := { sm with current_state := result.new_state }
  let sm2 :=
    if result.actions.start_timeout_timer then
      { sm1 with timer_active := true, timer_elapsed_ms := 0 }
    else sm1
  let sm3 :=
    if result.new_state = GARAGE_STATE_CLOSED ∨ result.new_state = GARAGE_STATE_OPEN then
      { sm2 with timer_active := false, timer_elapsed_ms := 0 }
    else sm2
  (sm3, result)

/-- The inert result built for a null machine pointer (lines 211-215), which
coincides with the `no_change` result `garage_sm_update_timer` builds when its
pointer is null. -/
def garage_error_result : garage_transition_result_t :=
  { new_state := GARAGE_STATE_UNKNOWN
    state_changed := false
    actions :=
      { publish_state := false
        trigger_button_press := false
        start_timeout_timer := false } }

/-- `garage_sm_process_event` including the null-pointer check. -/
def garage_sm_process_event_ptr (sm : Option garage_state_machine_t)
    (event : garage_event_t) :
    Option garage_state_machine_t × garage_transition_result_t :=
  match sm with
  | none => (none, garage_error_result)
  | some m =>
    let p := garage_sm_process_event m event
    (some p.1, p.2)

/-- The `no_change` result of `garage_sm_update_timer` (lines 265-269) for a
non-null machine. -/
def garage_no_change_result (sm : garage_state_machine_t) : garage_transition_result_t :=
  { new_state := sm.current_state
    state_changed := false
    actions :=
      { publish_state := false
        trigger_button_press := false
        start_timeout_timer := false } }

/-- `garage_sm_update_timer` on a non-null machine (lines 263-286). -/
def garage_sm_update_timer (sm : garage_state_machine_t) (delta_ms : Int) :
    garage_state_machine_t × garage_transition_result_t :=
  if !sm.timer_active then
    (sm, garage_no_change_result sm)
  else
    let sm1 := { sm with timer_elapsed_ms := sm.timer_elapsed_ms + delta_ms }
    if sm1.timer_elapsed_ms ≥ sm1.timeout_ms then
      let sm2 := { sm1 with timer_active := false, timer_elapsed_ms := 0 }
      garage_sm_process_event sm2 GARAGE_EVENT_TIMER_EXPIRED
    else
      (sm1, garage_no_change_result sm)

/-- `garage_sm_update_timer` including the null-pointer check. -/
def garage_sm_update_timer_ptr (sm : Option garage_state_machine_t)
    (delta_ms : Int) :
    Option garage_state_machine_t × garage_transition_result_t :=
  match sm with
  | none => (none, garage_error_result)
  | some m =>
    let p := garage_sm_update_timer m delta_ms
    (some p.1, p.2)

/-- The door transition table as listed in the specification: rows of
(current state, event, new state, publish, button, timer). -/
def spec_transition_table :
    List (garage_state_t × garage_event_t × garage_state_t × Bool × Bool × Bool) :=
  [ (GARAGE_STATE_CLOSED, GARAGE_EVENT_SENSOR_OPEN, GARAGE_STATE_OPENING, true, false, true),
    (GARAGE_STATE_CLOSED, GARAGE_EVENT_COMMAND_OPEN, GARAGE_STATE_OPENING, true, true, true),
    (GARAGE_STATE_OPEN, GARAGE_EVENT_SENSOR_CLOSED, GARAGE_STATE_CLOSED, true, false, false),
    (GARAGE_STATE_OPEN, GARAGE_EVENT_COMMAND_CLOSE, GARAGE_STATE_CLOSING, true, true, true),
    (GARAGE_STATE_CLOSING, GARAGE_EVENT_SENSOR_CLOSED, GARAGE_STATE_CLOSED, true, false, false),
    (GARAGE_STATE_CLOSING, GARAGE_EVENT_TIMER_EXPIRED, GARAGE_STATE_UNKNOWN, true, false, false),
    (GARAGE_STATE_OPENING, GARAGE_EVENT_SENSOR_CLOSED, GARAGE_STATE_CLOSED, true, false, false),
    (GARAGE_STATE_OPENING, GARAGE_EVENT_TIMER_EXPIRED, GARAGE_STATE_OPEN, true, false, false),
    (GARAGE_STATE_UNKNOWN, GARAGE_EVENT_SENSOR_CLOSED, GARAGE_STATE_CLOSED, true, false, false),
    (GARAGE_STATE_UNKNOWN, GARAGE_EVENT_SENSOR_OPEN, GARAGE_STATE_OPEN, true, false, false),
    (GARAGE_STATE_UNKNOWN, GARAGE_EVENT_COMMAND_OPEN, GARAGE_STATE_OPENING, true, true, true),
    (GARAGE_STATE_UNKNOWN, GARAGE_EVENT_COMMAND_CLOSE, GARAGE_STATE_CLOSING, true, true, true) ]

/-- A (state, event) pair is listed when it appears in some row of the table. -/
def spec_listed (s : garage_state_t) (e : garage_event_t) : Bool :=
  spec_transition_table.any (fun row => row.1 == s && row.2.1 == e)

/-- C1: for every (current state, event) pair listed in the door transition
table, `garage_sm_process_event` on a non-null machine in that state returns
exactly the listed new state and action flags, sets `state_changed = true`,
and updates the machine's `current_state` to the listed new state. -/
theorem c1_transition_table (s : garage_state_t) (e : garage_event_t)
    (s2 : garage_state_t) (pub btn tmr : Bool)
    (hrow : (s, e, s2, pub, btn, tmr) ∈ spec_transition_table)
    (sm : garage_state_machine_t) (hs : sm.current_state = s) :
    (garage_sm_process_event sm e).2.new_state = s2 ∧
    (garage_sm_process_event sm e).2.state_changed = true ∧
    (garage_sm_process_event sm e).2.actions.publish_state = pub ∧
    (garage_sm_process_event sm e).2.actions.trigger_button_press = btn ∧
    (garage_sm_process_event sm e).2.actions.start_timeout_timer = tmr ∧
    (garage_sm_process_event sm e).1.current_state = s2 := by
  rcases sm with ⟨cs, tmo, el, act⟩
  simp only [garage_state_machine_t.current_state] at hs
  subst hs
  fin_cases hrow <;>
    simp [garage_sm_process_event, handle_closed_state, handle_open_state,
      handle_closing_state, handle_opening_state, handle_unknown_state, make_result]

/-- Witness for C1 at the row (Closed, CommandOpen) and a concrete machine. -/
theorem c1_transition_table_witness :
    (garage_sm_process_event (garage_sm_init GARAGE_STATE_CLOSED)
        GARAGE_EVENT_COMMAND_OPEN).2.new_state = GARAGE_STATE_OPENING ∧
    (garage_sm_process_event (garage_sm_init GARAGE_STATE_CLOSED)
        GARAGE_EVENT_COMMAND_OPEN).2.state_changed = true ∧
    (garage_sm_process_event (garage_sm_init GARAGE_STATE_CLOSED)
        GARAGE_EVENT_COMMAND_OPEN).2.actions.publish_state = true ∧
    (garage_sm_process_event (garage_sm_init GARAGE_STATE_CLOSED)
        GARAGE_EVENT_COMMAND_OPEN).2.actions.trigger_button_press = true ∧
    (garage_sm_process_event (garage_sm_init GARAGE_STATE_CLOSED)
        GARAGE_EVENT_COMMAND_OPEN).2.actions.start_timeout_timer = true ∧
    (garage_sm_process_event (garage_sm_init GARAGE_STATE_CLOSED)
        GARAGE_EVENT_COMMAND_OPEN).1.current_state = GARAGE_STATE_OPENING :=
  c1_transition_table GARAGE_STATE_CLOSED GARAGE_EVENT_COMMAND_OPEN
    GARAGE_STATE_OPENING true true true (by decide)
    (garage_sm_init GARAGE_STATE_CLOSED) rfl

/-- C2: for every (state, event) pair not listed in the table,
`garage_sm_process_event` leaves `current_state` unchanged and returns
`state_changed = false` with all three action flags false. -/
theorem c2_unlisted_noop (sm : garage_state_machine_t) (e : garage_event_t)
    (h : spec_listed sm.current_state e = false) :
    (garage_sm_process_event sm e).1.current_state = sm.current_state ∧
    (garage_sm_process_event sm e).2.state_changed = false ∧
    (garage_sm_process_event sm e).2.actions.publish_state = false ∧
    (garage_sm_process_event sm e).2.actions.trigger_button_press = false ∧
    (garage_sm_process_event sm e).2.actions.start_timeout_timer = false := by
  rcases sm with ⟨cs, tmo, el, act⟩
  simp only [garage_state_machine_t.current_state] at h ⊢
  cases cs <;> cases e <;>
    first
      | exact absurd h (by decide)
      | simp [garage_sm_process_event, handle_closed_state, handle_open_state,
          handle_closing_state, handle_opening_state, handle_unknown_state, make_result]

/-- Witness for C2: the pair (Closed, TimerExpired) is unlisted and is a no-op. -/
theorem c2_unlisted_noop_witness :
    spec_listed GARAGE_STATE_CLOSED GARAGE_EVENT_TIMER_EXPIRED = false ∧
    ((garage_sm_process_event (garage_sm_init GARAGE_STATE_CLOSED)
        GARAGE_EVENT_TIMER_EXPIRED).1.current_state = GARAGE_STATE_CLOSED ∧
      (garage_sm_process_event (garage_sm_init GARAGE_STATE_CLOSED)
        GARAGE_EVENT_TIMER_EXPIRED).2.state_changed = false ∧
      (garage_sm_process_event (garage_sm_init GARAGE_STATE_CLOSED)
        GARAGE_EVENT_TIMER_EXPIRED).2.actions.publish_state = false ∧
      (garage_sm_process_event (garage_sm_init GARAGE_STATE_CLOSED)
        GARAGE_EVENT_TIMER_EXPIRED).2.actions.trigger_button_press = false ∧
      (garage_sm_process_event (garage_sm_init GARAGE_STATE_CLOSED)
        GARAGE_EVENT_TIMER_EXPIRED).2.actions.start_timeout_timer = false) :=
  ⟨by decide, c2_unlisted_noop (garage_sm_init GARAGE_STATE_CLOSED)
      GARAGE_EVENT_TIMER_EXPIRED (by decide)⟩

/-- `state_changed` and `publish_state` agree in every result produced by
`garage_sm_process_event` on a non-null machine. -/
theorem garage_process_changed_eq_publish (sm : garage_state_machine_t)
    (e : garage_event_t) :
    (garage_sm_process_event sm e).2.state_changed =
      (garage_sm_process_event sm e).2.actions.publish_state := by
  rcases sm with ⟨cs, tmo, el, act⟩
  cases cs <;> cases e <;> rfl

/-- C3: for every non-null machine state and every event (resp. delta), the
result of `garage_sm_process_event` (resp. `garage_sm_update_timer`) has
`state_changed = true` if and only if `actions.publish_state = true`. -/
theorem c3_changed_iff_publish (sm : garage_state_machine_t)
    (e : garage_event_t) (d : Int) :
    ((garage_sm_process_event sm e).2.state_changed = true ↔
      (garage_sm_process_event sm e).2.actions.publish_state = true) ∧
    ((garage_sm_update_timer sm d).2.state_changed = true ↔
      (garage_sm_update_timer sm d).2.actions.publish_state = true) := by
  constructor
  · rw [garage_process_changed_eq_publish]
  · unfold garage_sm_update_timer
    split
    · exact Iff.rfl
    · dsimp only
      split
      · rw [garage_process_changed_eq_publish]
      · exact Iff.rfl

/-- C4: after `garage_sm_process_event` on a non-null machine, (i) if the new
state is Closed or Open the timer is inactive with elapsed time 0; (ii) if the
result starts the timeout timer, the timer is active with elapsed time 0;
(iii) the timer is started exactly on the transitions that change state into
Opening or Closing. -/
theorem c4_timer_discipline (sm : garage_state_machine_t) (e : garage_event_t) :
    ((garage_sm_process_event sm e).2.new_state = GARAGE_STATE_CLOSED ∨
       (garage_sm_process_event sm e).2.new_state = GARAGE_STATE_OPEN →
      (garage_sm_process_event sm e).1.timer_active = false ∧
      (garage_sm_process_event sm e).1.timer_elapsed_ms = 0) ∧
    ((garage_sm_process_event sm e).2.actions.start_timeout_timer = true →
      (garage_sm_process_event sm e).1.timer_active = true ∧
      (garage_sm_process_event sm e).1.timer_elapsed_ms = 0) ∧
    ((garage_sm_process_event sm e).2.actions.start_timeout_timer = true ↔
      (garage_sm_process_event sm e).2.state_changed = true ∧
        ((garage_sm_process_event sm e).2.new_state = GARAGE_STATE_OPENING ∨
         (garage_sm_process_event sm e).2.new_state = GARAGE_STATE_CLOSING)) := by
  rcases sm with ⟨cs, tmo, el, act⟩
  cases cs <;> cases e <;>
    simp [garage_sm_process_event, handle_closed_state, handle_open_state,
      handle_closing_state, handle_opening_state, handle_unknown_state, make_result]

/-- Witness for C4: a transition into Open clears the timer, and a transition
starting the timer leaves it active at 0. -/
theorem c4_timer_discipline_witness :
    ((garage_sm_process_event
        { current_state := GARAGE_STATE_OPENING, timeout_ms := 15000,
          timer_elapsed_ms := 7, timer_active := true }
        GARAGE_EVENT_TIMER_EXPIRED).1.timer_active = false ∧
      (garage_sm_process_event
        { current_state := GARAGE_STATE_OPENING, timeout_ms := 15000,
          timer_elapsed_ms := 7, timer_active := true }
        GARAGE_EVENT_TIMER_EXPIRED).1.timer_elapsed_ms = 0) ∧
    ((garage_sm_process_event (garage_sm_init GARAGE_STATE_CLOSED)
        GARAGE_EVENT_COMMAND_OPEN).1.timer_active = true ∧
      (garage_sm_process_event (garage_sm_init GARAGE_STATE_CLOSED)
        GARAGE_EVENT_COMMAND_OPEN).1.timer_elapsed_ms = 0) :=
  ⟨(c4_timer_discipline
      { current_state := GARAGE_STATE_OPENING, timeout_ms := 15000,
        timer_elapsed_ms := 7, timer_active := true }
      GARAGE_EVENT_TIMER_EXPIRED).1 (Or.inr rfl),
   (c4_timer_discipline (garage_sm_init GARAGE_STATE_CLOSED)
      GARAGE_EVENT_COMMAND_OPEN).2.1 rfl⟩

/-- C9: a null machine handle passed to `garage_sm_process_event` or
`garage_sm_update_timer` yields `new_state = Unknown`, `state_changed = false`
and all action flags false, and mutates nothing (the machine stays absent). -/
theorem c9_null_handle (e : garage_event_t) (d : Int) :
    garage_sm_process_event_ptr none e =
      (none,
        { new_state := GARAGE_STATE_UNKNOWN
          state_changed := false
          actions :=
            { publish_state := false
              trigger_button_press := false
              start_timeout_timer := false } }) ∧
    garage_sm_update_timer_ptr none d =
      (none,
        { new_state := GARAGE_STATE_UNKNOWN
          state_changed := false
          actions :=
            { publish_state := false
              trigger_button_press := false
              start_timeout_timer := false } }) :=
  ⟨rfl, rfl⟩

/-- C6 (code bug): `garage_state_to_string` returns the UPPERCASE strings
"CLOSED", "OPEN", "CLOSING", "OPENING", "UNKNOWN", not the lowercase wire
strings its own header comment ("lowercase for MQTT") and the repository's
unit tests (test_state_machine.c, test_state_machine.cpp) demand. -/
theorem c6_state_to_string_uppercase :
    garage_state_to_string GARAGE_STATE_CLOSED = "CLOSED" ∧
    garage_state_to_string GARAGE_STATE_OPEN = "OPEN" ∧
    garage_state_to_string GARAGE_STATE_CLOSING = "CLOSING" ∧
    garage_state_to_string GARAGE_STATE_OPENING = "OPENING" ∧
    garage_state_to_string GARAGE_STATE_UNKNOWN = "UNKNOWN" ∧
    garage_state_to_string GARAGE_STATE_CLOSED ≠ "closed" := by
  refine ⟨rfl, rfl, rfl, rfl, rfl, ?_⟩
  decide

/-- Reachable machine states: an initialised machine evolved by any sequence
of external `garage_sm_process_event` calls and `garage_sm_update_timer`
calls. Per the specification, `TimerExpired` is a synthetic event dispatched
internally by `garage_sm_update_timer`, not an external input, so external
steps exclude it (the timer steps still dispatch it internally). -/
inductive garage_reachable : garage_state_machine_t → Prop where
  | init (s : garage_state_t) : garage_reachable (garage_sm_init s)
  | init_with_config (s : garage_state_t) (c : Option garage_sm_config_t) :
      garage_reachable (garage_sm_init_with_config s c)
  | step_event (sm : garage_state_machine_t) (e : garage_event_t)
      (he : e ≠ GARAGE_EVENT_TIMER_EXPIRED) :
      garage_reachable sm → garage_reachable (garage_sm_process_event sm e).1
  | step_timer (sm : garage_state_machine_t) (d : Int) :
      garage_reachable sm → garage_reachable (garage_sm_update_timer sm d).1

/-- The timeout timer runs only while the door is Opening or Closing. -/
def garage_timer_inv (sm : garage_state_machine_t) : Prop :=
  sm.timer_active = true →
    sm.current_state = GARAGE_STATE_OPENING ∨ sm.current_state = GARAGE_STATE_CLOSING

theorem garage_process_event_external_preserves_inv (sm : garage_state_machine_t)
    (e : garage_event_t) (he : e ≠ GARAGE_EVENT_TIMER_EXPIRED)
    (h : garage_timer_inv sm) :
    garage_timer_inv (garage_sm_process_event sm e).1 := by
  rcases sm with ⟨cs, tmo, el, act⟩
  cases cs <;> cases e <;>
    simp_all [garage_timer_inv, garage_sm_process_event, handle_closed_state,
      handle_open_state, handle_closing_state, handle_opening_state,
      handle_unknown_state, make_result]

theorem garage_process_timer_expired_inactive_inv (sm : garage_state_machine_t)
    (hact : sm.timer_active = false) :
    garage_timer_inv (garage_sm_process_event sm GARAGE_EVENT_TIMER_EXPIRED).1 := by
  rcases sm with ⟨cs, tmo, el, act⟩
  cases cs <;>
    simp_all [garage_timer_inv, garage_sm_process_event, handle_closed_state,
      handle_open_state, handle_closing_state, handle_opening_state,
      handle_unknown_state, make_result]

theorem garage_update_timer_preserves_inv (sm : garage_state_machine_t)
    (d : Int) (h : garage_timer_inv sm) :
    garage_timer_inv (garage_sm_update_timer sm d).1 := by
  unfold garage_sm_update_timer
  split
  · exact h
  · dsimp only
    split
    · exact garage_process_timer_expired_inactive_inv _ rfl
    · intro hact
      exact h hact

theorem garage_reachable_inv (sm : garage_state_machine_t)
    (h : garage_reachable sm) : garage_timer_inv sm := by
  induction h with
  | init s => intro hc; exact absurd hc (by simp [garage_sm_init])
  | init_with_config s c =>
    intro hc; exact absurd hc (by simp [garage_sm_init_with_config])
  | step_event sm e he _ ih =>
    exact garage_process_event_external_preserves_inv sm e he ih
  | step_timer sm d _ ih => exact garage_update_timer_preserves_inv sm d ih

/-- Fold a list of delta arguments through `garage_sm_update_timer`, keeping
the machine. -/
def run_update_timer : garage_state_machine_t → List Int → garage_state_machine_t
  | sm, [] => sm
  | sm, d :: ds => run_update_timer (garage_sm_update_timer sm d).1 ds

/-- True when every call in the fold reports `state_changed = false`. -/
def updates_never_change : garage_state_machine_t → List Int → Bool
  | _, [] => true
  | sm, d :: ds =>
      !(garage_sm_update_timer sm d).2.state_changed &&
        updates_never_change (garage_sm_update_timer sm d).1 ds

theorem run_update_timer_no_expiry (ds : List Int) :
    ∀ sm : garage_state_machine_t, (∀ d ∈ ds, 0 ≤ d) →
      sm.timer_active = true →
      sm.timer_elapsed_ms + ds.sum < sm.timeout_ms →
      run_update_timer sm ds =
        { sm with timer_elapsed_ms := sm.timer_elapsed_ms + ds.sum } ∧
      updates_never_change sm ds = true := by
  induction ds with
  | nil =>
    intro sm _ _ _
    refine ⟨?_, rfl⟩
    rcases sm with ⟨cs, tmo, el, act⟩
    simp [run_update_timer]
  | cons d ds ih =>
    intro sm hnn hact hb
    have hd0 : 0 ≤ d := hnn d (List.mem_cons_self d ds)
    have hrest : ∀ x ∈ ds, 0 ≤ x := fun x hx => hnn x (List.mem_cons_of_mem d hx)
    have hsum0 : 0 ≤ ds.sum := List.sum_nonneg hrest
    have hb' : sm.timer_elapsed_ms + (d + ds.sum) < sm.timeout_ms := by
      simpa [List.sum_cons] using hb
    have h1 : sm.timer_elapsed_ms + d < sm.timeout_ms := by omega
    have h2 : ¬ sm.timer_elapsed_ms + d ≥ sm.timeout_ms := not_le.mpr h1
    have hstep : garage_sm_update_timer sm d =
        ({ sm with timer_elapsed_ms := sm.timer_elapsed_ms + d },
          garage_no_change_result sm) := by
      simp [garage_sm_update_timer, hact, h2]
    have hb2 : ({ sm with timer_elapsed_ms := sm.timer_elapsed_ms + d } :
        garage_state_machine_t).timer_elapsed_ms + ds.sum <
        ({ sm with timer_elapsed_ms := sm.timer_elapsed_ms + d } :
          garage_state_machine_t).timeout_ms := by
      simp only
      omega
    obtain ⟨ihrun, ihnc⟩ :=
      ih { sm with timer_elapsed_ms := sm.timer_elapsed_ms + d } hrest hact hb2
    constructor
    · rw [run_update_timer, hstep]
      rw [ihrun]
      rcases sm with ⟨cs, tmo, el, act⟩
      simp [List.sum_cons, add_assoc]
    · rw [updates_never_change, hstep]
      simp [garage_no_change_result, ihnc]

/-- Crossing the timeout threshold from Opening or Closing always changes the
state. -/
theorem garage_expiry_changes (sm : garage_state_machine_t)
    (hs : sm.current_state = GARAGE_STATE_OPENING ∨
      sm.current_state = GARAGE_STATE_CLOSING)
    (hact : sm.timer_active = true)
    (hexp : sm.timer_elapsed_ms + 1 ≥ sm.timeout_ms) :
    (garage_sm_update_timer sm 1).2.state_changed = true := by
  rcases sm with ⟨cs, tmo, el, act⟩
  simp only [garage_state_machine_t.current_state] at hs
  simp only [garage_state_machine_t.timer_active] at hact
  subst hact
  rcases hs with h | h <;> subst h <;>
    simp_all [garage_sm_update_timer, garage_sm_process_event,
      handle_opening_state, handle_closing_state, make_result]

/-- C5 (amended): (i) `garage_sm_update_timer` on a non-null machine is a
no-op when the timer is inactive, advances `timer_elapsed_ms` by `delta_ms`
and returns a no-op result while the new elapsed time stays below
`timeout_ms`, and otherwise clears the timer and returns the result of
dispatching `TimerExpired` through `garage_sm_process_event`; (ii) from any
reachable state in which the timer has just been started
(`timer_active = true`, `timer_elapsed_ms = 0`), repeated calls with
nonnegative deltas summing to exactly `timeout_ms - 1` never change the
state, and one further 1 ms call crossing the threshold always changes the
state. -/
theorem c5_update_timer_amended :
    (∀ (sm : garage_state_machine_t) (d : Int),
      (sm.timer_active = false →
        garage_sm_update_timer sm d = (sm, garage_no_change_result sm)) ∧
      (sm.timer_active = true → sm.timer_elapsed_ms + d < sm.timeout_ms →
        garage_sm_update_timer sm d =
          ({ sm with timer_elapsed_ms := sm.timer_elapsed_ms + d },
            garage_no_change_result sm)) ∧
      (sm.timer_active = true → sm.timer_elapsed_ms + d ≥ sm.timeout_ms →
        garage_sm_update_timer sm d =
          garage_sm_process_event
            { sm with timer_active := false, timer_elapsed_ms := 0 }
            GARAGE_EVENT_TIMER_EXPIRED)) ∧
    (∀ sm : garage_state_machine_t, garage_reachable sm →
      sm.timer_active = true → sm.timer_elapsed_ms = 0 →
      ∀ ds : List Int, (∀ d ∈ ds, 0 ≤ d) → ds.sum = sm.timeout_ms - 1 →
        updates_never_change sm ds = true ∧
        (garage_sm_update_timer (run_update_timer sm ds) 1).2.state_changed = true) := by
  constructor
  · intro sm d
    refine ⟨?_, ?_, ?_⟩
    · intro h
      simp [garage_sm_update_timer, h]
    · intro hact hlt
      have h2 : ¬ sm.timer_elapsed_ms + d ≥ sm.timeout_ms := not_le.mpr hlt
      simp [garage_sm_update_timer, hact, h2]
    · intro hact hge
      simp [garage_sm_update_timer, hact, hge]
  · intro sm hre hact hel ds hnn hsum
    have hinv := garage_reachable_inv sm hre hact
    have hb : sm.timer_elapsed_ms + ds.sum < sm.timeout_ms := by
      rw [hel, hsum]; omega
    obtain ⟨hrun, hnc⟩ := run_update_timer_no_expiry ds sm hnn hact hb
    refine ⟨hnc, ?_⟩
    rw [hrun]
    refine garage_expiry_changes _ ?_ hact ?_
    · exact hinv
    · simp only
      omega

/-- Witness for the amended C5: full run at the default 15000 ms timeout from
a freshly armed Opening state. -/
theorem c5_update_timer_amended_witness :
    updates_never_change
      (garage_sm_process_event (garage_sm_init GARAGE_STATE_UNKNOWN)
        GARAGE_EVENT_COMMAND_OPEN).1 [(14999 : Int)] = true ∧
    (garage_sm_update_timer
      (run_update_timer
        (garage_sm_process_event (garage_sm_init GARAGE_STATE_UNKNOWN)
          GARAGE_EVENT_COMMAND_OPEN).1 [(14999 : Int)]) 1).2.state_changed = true :=
  c5_update_timer_amended.2
    (garage_sm_process_event (garage_sm_init GARAGE_STATE_UNKNOWN)
      GARAGE_EVENT_COMMAND_OPEN).1
    (garage_reachable.step_event (garage_sm_init GARAGE_STATE_UNKNOWN)
      GARAGE_EVENT_COMMAND_OPEN (by decide)
      (garage_reachable.init GARAGE_STATE_UNKNOWN))
    rfl rfl [(14999 : Int)] (by decide) (by decide)

/-- C5 as stated is false: the state
`⟨Opening, timeout 15000, elapsed 100, timer active⟩` is reachable and has
the timer active, yet a sequence of calls with deltas summing to exactly
`timeout_ms - 1 = 14999` changes the state (the threshold is crossed because
100 ms had already elapsed). -/
theorem c5_claim_counterexample :
    garage_reachable
      { current_state := GARAGE_STATE_OPENING, timeout_ms := 15000,
        timer_elapsed_ms := 100, timer_active := true } ∧
    ({ current_state := GARAGE_STATE_OPENING, timeout_ms := 15000,
        timer_elapsed_ms := 100, timer_active := true } :
        garage_state_machine_t).timer_active = true ∧
    List.sum [(14999 : Int)] =
      ({ current_state := GARAGE_STATE_OPENING, timeout_ms := 15000,
          timer_elapsed_ms := 100, timer_active := true } :
          garage_state_machine_t).timeout_ms - 1 ∧
    updates_never_change
      { current_state := GARAGE_STATE_OPENING, timeout_ms := 15000,
        timer_elapsed_ms := 100, timer_active := true } [(14999 : Int)] = false ∧
    (run_update_timer
      { current_state := GARAGE_STATE_OPENING, timeout_ms := 15000,
        timer_elapsed_ms := 100, timer_active := true }
      [(14999 : Int)]).current_state = GARAGE_STATE_OPEN := by
  refine ⟨?_, rfl, by decide, by decide, by decide⟩
  have h : (⟨GARAGE_STATE_OPENING, 15000, 100, true⟩ : garage_state_machine_t) =
      (garage_sm_update_timer
        (garage_sm_process_event (garage_sm_init GARAGE_STATE_UNKNOWN)
          GARAGE_EVENT_COMMAND_OPEN).1 100).1 := by decide
  rw [h]
  exact garage_reachable.step_timer _ _
    (garage_reachable.step_event (garage_sm_init GARAGE_STATE_UNKNOWN)
      GARAGE_EVENT_COMMAND_OPEN (by decide)
      (garage_reachable.init GARAGE_STATE_UNKNOWN))

/-- MQTT retry state (`mqtt_retry_state_t`, mqtt_retry_manager.h). -/
structure mqtt_retry_state_t where
  is_connected : Bool
  disconnect_count : Int
  should_reconnect : Bool
deriving DecidableEq, Repr

/-- MQTT retry actions (`mqtt_retry_action_t`). -/
inductive mqtt_retry_action_t where
  | MQTT_RETRY_ACTION_NONE
  | MQTT_RETRY_ACTION_RECONNECT
deriving DecidableEq, Repr

open mqtt_retry_action_t

/-- MQTT result (`mqtt_retry_result_t`). -/
structure mqtt_retry_result_t where
  action : mqtt_retry_action_t
  should_callback_connected : Bool
  should_callback_disconnected : Bool
deriving DecidableEq, Repr

/-- The zero-initialised result (`mqtt_retry_result_t result = {0}`). -/
def mqtt_result_zero : mqtt_retry_result_t :=
  { action := MQTT_RETRY_ACTION_NONE
    should_callback_connected := false
    should_callback_disconnected := false }

/-- `mqtt_retry_init` on a non-null pointer. -/
def mqtt_retry_init (auto_reconnect : Bool) : mqtt_retry_state_t :=
  { should_reconnect := auto_reconnect
    is_connected := false
    disconnect_count := 0 }

/-- `mqtt_retry_on_disconnect` on a non-null pointer. -/
def mqtt_retry_on_disconnect (state : mqtt_retry_state_t) :
    mqtt_retry_state_t × mqtt_retry_result_t :=
  let state1 :=
    { state with is_connected := false, disconnect_count := state.disconnect_count + 1 }
  let result :=
    { mqtt_result_zero with
        should_callback_disconnected := true
        action :=
          if state1.should_reconnect then MQTT_RETRY_ACTION_RECONNECT
          else MQTT_RETRY_ACTION_NONE }
  (state1, result)

/-- `mqtt_retry_on_connected` on a non-null pointer. -/
def mqtt_retry_on_connected (state : mqtt_retry_state_t) :
    mqtt_retry_state_t × mqtt_retry_result_t :=
  ({ state with is_connected := true },
   { mqtt_result_zero with
       action := MQTT_RETRY_ACTION_NONE
       should_callback_connected := true })

/-- Events an MQTT retry state can receive. -/
inductive mqtt_op where
  | disconnect
  | connected
deriving DecidableEq, Repr

/-- Apply an interleaved sequence of disconnect/connected events. -/
def mqtt_run (s : mqtt_retry_state_t) : List mqtt_op → mqtt_retry_state_t
  | [] => s
  | op :: ops =>
    mqtt_run
      (match op with
        | mqtt_op.disconnect => (mqtt_retry_on_disconnect s).1
        | mqtt_op.connected => (mqtt_retry_on_connected s).1) ops

theorem mqtt_run_disconnect_count (ops : List mqtt_op) :
    ∀ s : mqtt_retry_state_t,
      (mqtt_run s ops).disconnect_count =
        s.disconnect_count + (ops.count mqtt_op.disconnect : Int) ∧
      (mqtt_run s ops).should_reconnect = s.should_reconnect := by
  induction ops with
  | nil => intro s; simp [mqtt_run]
  | cons op ops ih =>
    intro s
    cases op <;>
      (simp_all [mqtt_run, mqtt_retry_on_disconnect, mqtt_retry_on_connected,
        List.count_cons]; try omega)

/-- C7: starting from `mqtt_retry_init`, after any interleaved sequence of
disconnect/connected events with exactly N disconnects, `disconnect_count`
equals N; every `mqtt_retry_on_disconnect` sets `is_connected = false`,
increments `disconnect_count`, sets `should_callback_disconnected = true`,
and returns Reconnect exactly when the `should_reconnect` flag given at init
is set; `mqtt_retry_on_connected` never modifies `disconnect_count`. -/
theorem c7_mqtt_disconnect_count (b : Bool) (ops : List mqtt_op) :
    (mqtt_run (mqtt_retry_init b) ops).disconnect_count =
      (ops.count mqtt_op.disconnect : Int) ∧
    ((mqtt_retry_on_disconnect (mqtt_run (mqtt_retry_init b) ops)).2.action =
        MQTT_RETRY_ACTION_RECONNECT ↔ b = true) ∧
    (∀ s : mqtt_retry_state_t,
      (mqtt_retry_on_disconnect s).1.is_connected = false ∧
      (mqtt_retry_on_disconnect s).1.disconnect_count = s.disconnect_count + 1 ∧
      (mqtt_retry_on_disconnect s).2.should_callback_disconnected = true ∧
      ((mqtt_retry_on_disconnect s).2.action = MQTT_RETRY_ACTION_RECONNECT ↔
        s.should_reconnect = true) ∧
      (mqtt_retry_on_connected s).1.disconnect_count = s.disconnect_count ∧
      (mqtt_retry_on_connected s).1.should_reconnect = s.should_reconnect) := by
  obtain ⟨hcount, hflag⟩ := mqtt_run_disconnect_count ops (mqtt_retry_init b)
  have hb : (mqtt_run (mqtt_retry_init b) ops).should_reconnect = b := by
    rw [hflag]; rfl
  refine ⟨by simpa [mqtt_retry_init] using hcount, ?_, ?_⟩
  · simp only [mqtt_retry_on_disconnect, hb]
    cases b <;> simp
  · intro s
    refine ⟨rfl, rfl, rfl, ?_, rfl, rfl⟩
    simp [mqtt_retry_on_disconnect]

/-- WiFi retry state (`wifi_retry_state_t`, wifi_retry_manager.h). -/
structure wifi_retry_state_t where
  retry_count : Int
  max_retries : Int
  retry_interval_ms : Int
  is_connected : Bool
  timer_should_be_running : Bool
deriving DecidableEq, Repr

/-- WiFi retry actions (`wifi_retry_action_t`). -/
inductive wifi_retry_action_t where
  | WIFI_RETRY_ACTION_NONE
  | WIFI_RETRY_ACTION_CONNECT
  | WIFI_RETRY_ACTION_STOP_TIMER
  | WIFI_RETRY_ACTION_FAIL
deriving DecidableEq, Repr

open wifi_retry_action_t

/-- WiFi result (`wifi_retry_result_t`). -/
structure wifi_retry_result_t where
  action : wifi_retry_action_t
  should_callback_connected : Bool
  should_callback_disconnected : Bool
  should_callback_failed : Bool
  callback_retry_count : Int
deriving DecidableEq, Repr

/-- The zero-initialised result (`wifi_retry_result_t result = {0}`). -/
def wifi_result_zero : wifi_retry_result_t :=
  { action := WIFI_RETRY_ACTION_NONE
    should_callback_connected := false
    should_callback_disconnected := false
    should_callback_failed := false
    callback_retry_count := 0 }

/-- `wifi_retry_init` on a non-null pointer (memset to zero, then the fields
set explicitly). -/
def wifi_retry_init (max_retries retry_interval_ms : Int) : wifi_retry_state_t :=
  { retry_count := 0
    max_retries := max_retries
    retry_interval_ms := retry_interval_ms
    is_connected := false
    timer_should_be_running := false }

/-- `wifi_retry_on_disconnect` on a non-null pointer. -/
def wifi_retry_on_disconnect (state : wifi_retry_state_t) :
    wifi_retry_state_t × wifi_retry_result_t :=
  let state1 := { state with is_connected := false }
  if state1.retry_count < state1.max_retries then
    let state2 := { state1 with retry_count := state1.retry_count + 1 }
    (state2,
      { wifi_result_zero with
          action := WIFI_RETRY_ACTION_CONNECT
          should_callback_disconnected := true
          callback_retry_count := state2.retry_count })
  else
    ({ state1 with timer_should_be_running := true },
      { wifi_result_zero with
          action := WIFI_RETRY_ACTION_FAIL
          should_callback_disconnected := true
          callback_retry_count := state1.retry_count })

/-- `wifi_retry_on_connected` on a non-null pointer. -/
def wifi_retry_on_connected (state : wifi_retry_state_t) :
    wifi_retry_state_t × wifi_retry_result_t :=
  let state1 := { state with is_connected := true, retry_count := 0 }
  if state1.timer_should_be_running then
    ({ state1 with timer_should_be_running := false },
      { wifi_result_zero with
          action := WIFI_RETRY_ACTION_STOP_TIMER
          should_callback_connected := true })
  else
    (state1,
      { wifi_result_zero with
          action := WIFI_RETRY_ACTION_NONE
          should_callback_connected := true })

/-- `wifi_retry_on_timer_expired` on a non-null pointer. -/
def wifi_retry_on_timer_expired (state : wifi_retry_state_t) :
    wifi_retry_state_t × wifi_retry_result_t :=
  ({ state with retry_count := 0 },
   { wifi_result_zero with action := WIFI_RETRY_ACTION_CONNECT })

/-- `n` consecutive `wifi_retry_on_disconnect` calls. -/
def wifi_disconnects (s : wifi_retry_state_t) : Nat → wifi_retry_state_t
  | 0 => s
  | n + 1 => (wifi_retry_on_disconnect (wifi_disconnects s n)).1

theorem wifi_disconnects_retry_count (m i : Int) (hm : 0 ≤ m) (k : Nat) :
    (wifi_disconnects (wifi_retry_init m i) k).retry_count = min (k : Int) m ∧
    (wifi_disconnects (wifi_retry_init m i) k).max_retries = m := by
  induction k with
  | zero =>
    constructor
    · simp [wifi_disconnects, wifi_retry_init]
      omega
    · rfl
  | succ k ih =>
    obtain ⟨ihc, ihm⟩ := ih
    rw [wifi_disconnects]
    unfold wifi_retry_on_disconnect
    dsimp only
    split
    · rename_i hlt
      rw [ihc, ihm] at hlt
      dsimp only
      rw [ihc, ihm]
      refine ⟨by push_cast; omega, rfl⟩
    · rename_i hlt
      rw [ihc, ihm] at hlt
      dsimp only
      rw [ihc, ihm]
      refine ⟨by push_cast; omega, rfl⟩

/-- C8: starting from `wifi_retry_init(max_retries, interval)` (the spec
declares `max_retries` a uint, hence `0 ≤ max_retries`), the n-th consecutive
`wifi_retry_on_disconnect` call sets `is_connected = false`; if
`n ≤ max_retries` it increments `retry_count` to n and returns Connect with
`callback_retry_count = n`; if `n > max_retries` it returns Fail, sets
`timer_should_be_running = true`, and leaves `retry_count` at `max_retries`. -/
theorem c8_wifi_retry_budget (m i : Int) (hm : 0 ≤ m) (n : Nat) (hn : 1 ≤ n) :
    (wifi_retry_on_disconnect
      (wifi_disconnects (wifi_retry_init m i) (n - 1))).1.is_connected = false ∧
    ((n : Int) ≤ m →
      (wifi_retry_on_disconnect
        (wifi_disconnects (wifi_retry_init m i) (n - 1))).1.retry_count = (n : Int) ∧
      (wifi_retry_on_disconnect
        (wifi_disconnects (wifi_retry_init m i) (n - 1))).2.action =
        WIFI_RETRY_ACTION_CONNECT ∧
      (wifi_retry_on_disconnect
        (wifi_disconnects (wifi_retry_init m i) (n - 1))).2.callback_retry_count =
        (n : Int)) ∧
    ((n : Int) > m →
      (wifi_retry_on_disconnect
        (wifi_disconnects (wifi_retry_init m i) (n - 1))).2.action =
        WIFI_RETRY_ACTION_FAIL ∧
      (wifi_retry_on_disconnect
        (wifi_disconnects (wifi_retry_init m i) (n - 1))).1.timer_should_be_running =
        true ∧
      (wifi_retry_on_disconnect
        (wifi_disconnects (wifi_retry_init m i) (n - 1))).1.retry_count = m) := by
  obtain ⟨hc, hmax⟩ := wifi_disconnects_retry_count m i hm (n - 1)
  have hcast : ((n - 1 : Nat) : Int) = (n : Int) - 1 := by
    push_cast [hn]
    ring
  rw [hcast] at hc
  unfold wifi_retry_on_disconnect
  dsimp only
  split
  · rename_i hlt
    rw [hc, hmax] at hlt
    dsimp only
    rw [hc]
    exact ⟨rfl, fun hnm => ⟨by omega, rfl, by omega⟩, fun hnm => absurd hnm (by omega)⟩
  · rename_i hlt
    rw [hc, hmax] at hlt
    dsimp only
    rw [hc]
    exact ⟨rfl, fun hnm => absurd hnm (by omega), fun hnm => ⟨rfl, rfl, by omega⟩⟩

/-- Witness for C8 at `max_retries = 2`, `interval = 1000`, third call. -/
theorem c8_wifi_retry_budget_witness :
    (wifi_retry_on_disconnect
      (wifi_disconnects (wifi_retry_init 2 1000) 2)).1.is_connected = false ∧
    ((wifi_retry_on_disconnect
        (wifi_disconnects (wifi_retry_init 2 1000) 2)).2.action =
        WIFI_RETRY_ACTION_FAIL ∧
      (wifi_retry_on_disconnect
        (wifi_disconnects (wifi_retry_init 2 1000) 2)).1.timer_should_be_running =
        true ∧
      (wifi_retry_on_disconnect
        (wifi_disconnects (wifi_retry_init 2 1000) 2)).1.retry_count = 2) :=
  ⟨(c8_wifi_retry_budget 2 1000 (by decide) 3 (by decide)).1,
   (c8_wifi_retry_budget 2 1000 (by decide) 3 (by decide)).2.2 (by decide)⟩

/-- `k` consecutive `wifi_retry_on_timer_expired` calls. -/
def wifi_timer_expirations (s : wifi_retry_state_t) : Nat → wifi_retry_state_t
  | 0 => s
  | k + 1 => (wifi_retry_on_timer_expired (wifi_timer_expirations s k)).1

theorem wifi_timer_expirations_frame (s : wifi_retry_state_t) (k : Nat) :
    (wifi_timer_expirations s k).timer_should_be_running =
      s.timer_should_be_running ∧
    (wifi_timer_expirations s k).is_connected = s.is_connected := by
  induction k with
  | zero => exact ⟨rfl, rfl⟩
  | succ k ih =>
    rw [wifi_timer_expirations]
    exact ⟨ih.1, ih.2⟩

/-- C10: `wifi_retry_on_timer_expired` resets `retry_count` to 0 and returns
Connect, leaves `timer_should_be_running` and `is_connected` unchanged, and
sets no callback flags; hence the long-interval timer stays marked running
across any number of expirations until `wifi_retry_on_connected` clears it
with a StopTimer action. -/
theorem c10_timer_expired_frame (s : wifi_retry_state_t) :
    (wifi_retry_on_timer_expired s).1.retry_count = 0 ∧
    (wifi_retry_on_timer_expired s).2.action = WIFI_RETRY_ACTION_CONNECT ∧
    (wifi_retry_on_timer_expired s).1.timer_should_be_running =
      s.timer_should_be_running ∧
    (wifi_retry_on_timer_expired s).1.is_connected = s.is_connected ∧
    (wifi_retry_on_timer_expired s).2.should_callback_connected = false ∧
    (wifi_retry_on_timer_expired s).2.should_callback_disconnected = false ∧
    (wifi_retry_on_timer_expired s).2.should_callback_failed = false ∧
    (wifi_retry_on_timer_expired s).2.callback_retry_count = 0 ∧
    (∀ k : Nat, (wifi_timer_expirations s k).timer_should_be_running =
      s.timer_should_be_running) ∧
    (s.timer_should_be_running = true →
      (wifi_retry_on_connected s).2.action = WIFI_RETRY_ACTION_STOP_TIMER ∧
      (wifi_retry_on_connected s).1.timer_should_be_running = false) := by
  refine ⟨rfl, rfl, rfl, rfl, rfl, rfl, rfl, rfl,
    fun k => (wifi_timer_expirations_frame s k).1, fun h => ?_⟩
  simp [wifi_retry_on_connected, h]

/-- Witness for C10 at a state with the long-interval timer marked running. -/
theorem c10_timer_expired_frame_witness :
    (wifi_retry_on_connected
      { retry_count := 2, max_retries := 2, retry_interval_ms := 1000,
        is_connected := false, timer_should_be_running := true }).2.action =
      WIFI_RETRY_ACTION_STOP_TIMER ∧
    (wifi_retry_on_connected
      { retry_count := 2, max_retries := 2, retry_interval_ms := 1000,
        is_connected := false, timer_should_be_running := true }).1.timer_should_be_running =
      false :=
  (c10_timer_expired_frame
    { retry_count := 2, max_retries := 2, retry_interval_ms := 1000,
      is_connected := false, timer_should_be_running := true }).2.2.2.2.2.2.2.2.2 rfl
